import Mathlib

/-!
Verification development for the adjustable-mtm-performance repository
(a desktop office-assistant prototype: concurrent audio/screen capture,
transcription, summarization, window-activity tracking).

Each definition is a shallow embedding of a function of the Python
source: `record_audio`, `record_screen`, `record_audio_and_screen`
(src/recorder.py), `transcribe` (src/transcriber.py), `summarize_text`
(src/summarizer.py), `track_activity` (src/tracker.py) and
`run_session` (src/main.py).  External collaborators (the sounddevice
stream, pyautogui screenshots, the whisper model, the OpenAI chat API
and the pygetwindow query) are parameters of the embedded functions.
Wall-clock time is modelled by exact rational arithmetic: the sampling
clock advances by exactly `interval` per loop iteration and thread
completion times are given as inputs, which idealizes scheduling jitter
away but preserves the control flow of the source.
-/

namespace OfficeAssistant

/-! ## src/recorder.py -/

/-- WAV container as produced by Python's `wave` module: the header
fields set by `setnchannels` / `setsampwidth` / `setframerate`, and the
byte length of the payload passed to `writeframes`. -/
structure WavFile where
  nchannels : ℕ
  sampwidth : ℕ
  framerate : ℕ
  dataBytes : ℕ
deriving DecidableEq

/-- Frame count the `wave` module derives for the `data` chunk:
payload length divided by frame size (channels times sample width). -/
def wavNFrames (w : WavFile) : ℕ := w.dataBytes / (w.nchannels * w.sampwidth)

/-- Embedding of `record_audio(filename, duration, fs, channels)`:
`sd.rec(int(duration * fs), samplerate=fs, channels=channels, dtype=int16)`
captures `duration * fs` frames of `channels` 16-bit samples each
(2 bytes per sample), which are then written through the `wave` module
with the header fields set from the arguments. -/
def record_audio (duration fs channels : ℕ) : WavFile :=
  { nchannels := channels
    sampwidth := 2
    framerate := fs
    dataBytes := duration * fs * channels * 2 }

/-- Video container as produced by `cv2.VideoWriter`: the frame rate
passed to the writer and the sequence of frames written to it. -/
structure VideoFile (α : Type) where
  fps : ℕ
  frames : List α

/-- Embedding of `record_screen(filename, duration, fps)`: the loop
`for _ in range(int(duration * fps))` takes one screenshot per
iteration and writes it to the video writer.  The screenshot source is
a parameter mapping the iteration index to the captured frame. -/
def record_screen {α : Type} (screenshot : ℕ → α) (duration fps : ℕ) : VideoFile α :=
  { fps := fps
    frames := (List.range (duration * fps)).map screenshot }

/-- Join semantics of `threading.Thread.join`: the joining thread
resumes at the later of the current instant and the joined thread's
completion instant. -/
def threadJoin (now finishTime : ℚ) : ℚ := max now finishTime

/-- Timing model of `record_audio_and_screen`: both threads are started
at instant 0, then `audio_thread.join()` and `video_thread.join()` run
in sequence; the function returns when the second join completes.
`audioTime` and `videoTime` are the completion instants of the two
capture threads. -/
def record_audio_and_screen_returnTime (audioTime videoTime : ℚ) : ℚ :=
  threadJoin (threadJoin 0 audioTime) videoTime

/-! ## src/transcriber.py -/

/-- Python's `dict.get(key, default)` on a string-keyed dictionary
modelled as an association list. -/
def dictGetD (d : List (String × String)) (key dflt : String) : String :=
  match d.find? (fun kv => kv.1 == key) with
  | some kv => kv.2
  | none => dflt

/-- Embedding of `transcribe(audio_path, model_name)`: the whisper model
call `model.transcribe(audio_path)` returns a result dictionary
(a parameter, indexed by the audio path), and the function returns
`result.get("text", "")`. -/
def transcribe (whisperResult : String → List (String × String)) (audio_path : String) :
    String :=
  dictGetD (whisperResult audio_path) "text" ""

/-! ## src/summarizer.py -/

/-- Embedding of `summarize_text(text, ...)`.  `os.getenv` yields an
optional string; `if not api_key` is true for both a missing variable
and an empty string, in which case a RuntimeError is raised (modelled
as `Except.error`).  Otherwise the chat API (a parameter giving the
reply content for an input) is called exactly once and the stripped
content is returned.  The second component counts API invocations. -/
def summarize_text (apiKey : Option String) (chatContent : String → String)
    (text : String) : Except Unit String × ℕ :=
  match apiKey with
  | none => (.error (), 0)
  | some key =>
      if key = "" then (.error (), 0)
      else (.ok ((chatContent text).trim), 1)

/-! ## Theorems for claims about the capture and collaborator wrappers -/

/-- Claim C2: record_audio_and_screen has barrier-join semantics — it
does not return until both the audio-capture task and the screen-capture
task have completed, so delaying either task to finish at instant N
makes the coordinator's return instant at least N. -/
theorem coordinator_latency_ge_delay (audioTime videoTime n : ℚ)
    (h : n ≤ audioTime ∨ n ≤ videoTime) :
    n ≤ record_audio_and_screen_returnTime audioTime videoTime := by
  rcases h with h | h
  · calc n ≤ audioTime := h
      _ ≤ threadJoin 0 audioTime := le_max_right _ _
      _ ≤ record_audio_and_screen_returnTime audioTime videoTime := le_max_left _ _
  · exact le_trans h (le_max_right _ _)

theorem coordinator_latency_ge_delay_witness :
    ((5 : ℚ) ≤ 5 ∨ (5 : ℚ) ≤ 1) ∧
      (5 : ℚ) ≤ record_audio_and_screen_returnTime 5 1 :=
  ⟨Or.inl (by norm_num),
    coordinator_latency_ge_delay 5 1 5 (Or.inl (by norm_num))⟩

/-- Claim C4: for every duration and fps, record_screen captures and
writes exactly round(duration * fps) frames to the video file (both
arguments are integers in the source, so Python's int() and round()
both leave duration * fps unchanged). -/
theorem record_screen_frame_count {α : Type} (screenshot : ℕ → α) (duration fps : ℕ) :
    (record_screen screenshot duration fps).frames.length
      = (round ((duration : ℚ) * (fps : ℚ))).toNat := by
  have hcast : (duration : ℚ) * (fps : ℚ) = ((duration * fps : ℕ) : ℚ) := by
    push_cast
    ring
  rw [record_screen, List.length_map, List.length_range, hcast, round_natCast,
    Int.toNat_natCast]

/-- Claim C5: record_audio captures exactly duration * sample_rate PCM
frames and writes a WAV file whose header declares the given channel
count, the given sample rate, and 16-bit (2-byte) sample width. -/
theorem record_audio_frames_and_header (duration fs channels : ℕ)
    (h : 0 < channels) :
    wavNFrames (record_audio duration fs channels) = duration * fs ∧
      (record_audio duration fs channels).nchannels = channels ∧
      (record_audio duration fs channels).framerate = fs ∧
      (record_audio duration fs channels).sampwidth = 2 := by
  refine ⟨?_, rfl, rfl, rfl⟩
  show duration * fs * channels * 2 / (channels * 2) = duration * fs
  rw [mul_assoc (duration * fs) channels 2]
  exact Nat.mul_div_cancel _ (by positivity)

theorem record_audio_frames_and_header_witness :
    0 < 2 ∧
      (wavNFrames (record_audio 2 44100 2) = 2 * 44100 ∧
        (record_audio 2 44100 2).nchannels = 2 ∧
        (record_audio 2 44100 2).framerate = 44100 ∧
        (record_audio 2 44100 2).sampwidth = 2) :=
  ⟨by decide, record_audio_frames_and_header 2 44100 2 (by decide)⟩

/-- Claim C6: if the OPENAI_API_KEY environment variable is unset or
empty, summarize_text raises a configuration error and the external
chat API is never invoked (the call counter stays at zero). -/
theorem summarize_missing_key_no_api_call (apiKey : Option String)
    (chatContent : String → String) (text : String)
    (h : apiKey = none ∨ apiKey = some "") :
    summarize_text apiKey chatContent text = (.error (), 0) := by
  rcases h with h | h <;> rw [h] <;> simp [summarize_text]

theorem summarize_missing_key_no_api_call_witness :
    ((none : Option String) = none ∨ (none : Option String) = some "") ∧
      summarize_text none (fun _ => "reply") "hello" = (.error (), 0) :=
  ⟨Or.inl rfl,
    summarize_missing_key_no_api_call none (fun _ => "reply") "hello" (Or.inl rfl)⟩

/-- Claim C10: if the transcription model's result dictionary contains
no "text" field, transcribe returns the empty string rather than
raising an error. -/
theorem transcribe_missing_text_field_empty
    (whisperResult : String → List (String × String)) (audio_path : String)
    (h : ∀ kv ∈ whisperResult audio_path, kv.1 ≠ "text") :
    transcribe whisperResult audio_path = "" := by
  rw [transcribe, dictGetD]
  have hfind : (whisperResult audio_path).find? (fun kv => kv.1 == "text") = none := by
    rw [List.find?_eq_none]
    intro kv hkv
    simpa using h kv hkv
  rw [hfind]

theorem transcribe_missing_text_field_empty_witness :
    (∀ kv ∈ (fun _ : String => ([("language", "en")] : List (String × String))) "a.wav",
      kv.1 ≠ "text") ∧
      transcribe (fun _ => [("language", "en")]) "a.wav" = "" :=
  ⟨by decide, transcribe_missing_text_field_empty (fun _ => [("language", "en")]) "a.wav"
    (by decide)⟩

/-! ## src/tracker.py -/

/-- Outcome of one `pygetwindow.getActiveWindow()` call: the call can
raise an exception, return None (no focused window), or return a window
object carrying a title. -/
inductive WinQuery where
  | raises : WinQuery
  | noWindow : WinQuery
  | window (title : String) : WinQuery
deriving DecidableEq

/-- One record appended by the tracking loop:
a timestamp and the window title. -/
structure ActivitySample where
  timestamp : ℚ
  title : String
deriving DecidableEq

/-- Embedding of the `while time.time() < end_time` loop of
`track_activity`.  Each iteration queries the active window
(`queries k` is the outcome of the k-th call); a raised exception
propagates out of the loop (there is no try/except in the source),
`None` yields the sentinel title "Unknown", and a window yields its
title.  The record's timestamp is the current instant and
`time.sleep(interval)` advances the clock by `interval`.  For
`interval <= 0` the Python loop would never terminate; the embedding
folds that precondition into the loop guard. -/
def trackLoop (queries : ℕ → WinQuery) (interval endTime : ℚ) (k : ℕ) (t : ℚ) :
    Except Unit (List ActivitySample) :=
  if h : t < endTime ∧ 0 < interval then
    match queries k with
    | .raises => .error ()
    | .noWindow =>
        (trackLoop queries interval endTime (k + 1) (t + interval)).map
          (fun rest => ⟨t, "Unknown"⟩ :: rest)
    | .window s =>
        (trackLoop queries interval endTime (k + 1) (t + interval)).map
          (fun rest => ⟨t, s⟩ :: rest)
  else
    .ok []
termination_by (⌈(endTime - t) / interval⌉).toNat
decreasing_by
  all_goals {
    obtain ⟨h1, h2⟩ := h
    have hx : 0 < (endTime - t) / interval := div_pos (by linarith) h2
    have hc : 1 ≤ ⌈(endTime - t) / interval⌉ := Int.ceil_pos.mpr hx
    have he : (endTime - (t + interval)) / interval = (endTime - t) / interval - 1 := by
      field_simp
      ring
    rw [he, Int.ceil_sub_one]
    omega
  }

/-- Embedding of `track_activity(duration, interval)`:
`end_time = time.time() + duration` with `start` the clock reading at
entry, then the sampling loop. -/
def track_activity (queries : ℕ → WinQuery) (start duration interval : ℚ) :
    Except Unit (List ActivitySample) :=
  trackLoop queries interval (start + duration) 0 start

/-- Title recorded for a non-raising query outcome. -/
def titleStr : WinQuery → String
  | .raises => ""
  | .noWindow => "Unknown"
  | .window s => s

theorem ceil_step (interval endTime t : ℚ) (hi : 0 < interval) (ht : t < endTime) :
    (⌈(endTime - t) / interval⌉).toNat
      = (⌈(endTime - (t + interval)) / interval⌉).toNat + 1 := by
  have hx : 0 < (endTime - t) / interval := div_pos (by linarith) hi
  have hc : 1 ≤ ⌈(endTime - t) / interval⌉ := Int.ceil_pos.mpr hx
  have he : (endTime - (t + interval)) / interval = (endTime - t) / interval - 1 := by
    field_simp
    ring
  rw [he, Int.ceil_sub_one]
  omega

theorem trackLoop_ok (queries : ℕ → WinQuery) (interval endTime : ℚ)
    (hi : 0 < interval) (hq : ∀ j, queries j ≠ .raises) (k : ℕ) (t : ℚ) :
    trackLoop queries interval endTime k t =
      .ok ((List.range (⌈(endTime - t) / interval⌉).toNat).map
        (fun j : ℕ => ⟨t + (j : ℚ) * interval, titleStr (queries (k + j))⟩)) := by
  induction k, t using trackLoop.induct queries interval endTime with
  | case1 k t h hraise =>
      exact absurd hraise (hq k)
  | case2 k t h hnw ih =>
      obtain ⟨ht, -⟩ := h
      rw [trackLoop.eq_def, dif_pos ⟨ht, hi⟩, hnw, ih, ceil_step interval endTime t hi ht,
        List.range_succ_eq_map, List.map_cons, List.map_map]
      show Except.ok _ = Except.ok _
      congr 1
      have h0 : (⟨t + (0 : ℕ) * interval, titleStr (queries (k + 0))⟩ : ActivitySample)
          = ⟨t, "Unknown"⟩ := by
        simp [hnw, titleStr]
      rw [h0]
      congr 1
      apply List.map_congr_left
      intro a _
      show (⟨t + interval + (a : ℚ) * interval, titleStr (queries (k + 1 + a))⟩ : ActivitySample)
        = ⟨t + ((a + 1 : ℕ) : ℚ) * interval, titleStr (queries (k + (a + 1)))⟩
      have harith : t + interval + (a : ℚ) * interval = t + ((a + 1 : ℕ) : ℚ) * interval := by
        push_cast
        ring
      rw [harith]
      have hidx : k + 1 + a = k + (a + 1) := by omega
      rw [hidx]
  | case3 k t h s hw ih =>
      obtain ⟨ht, -⟩ := h
      rw [trackLoop.eq_def, dif_pos ⟨ht, hi⟩, hw, ih, ceil_step interval endTime t hi ht,
        List.range_succ_eq_map, List.map_cons, List.map_map]
      show Except.ok _ = Except.ok _
      congr 1
      have h0 : (⟨t + (0 : ℕ) * interval, titleStr (queries (k + 0))⟩ : ActivitySample)
          = ⟨t, s⟩ := by
        simp [hw, titleStr]
      rw [h0]
      congr 1
      apply List.map_congr_left
      intro a _
      show (⟨t + interval + (a : ℚ) * interval, titleStr (queries (k + 1 + a))⟩ : ActivitySample)
        = ⟨t + ((a + 1 : ℕ) : ℚ) * interval, titleStr (queries (k + (a + 1)))⟩
      have harith : t + interval + (a : ℚ) * interval = t + ((a + 1 : ℕ) : ℚ) * interval := by
        push_cast
        ring
      rw [harith]
      have hidx : k + 1 + a = k + (a + 1) := by omega
      rw [hidx]
  | case4 k t h =>
      have ht : endTime ≤ t := by
        by_contra hc
        exact h ⟨lt_of_not_le hc, hi⟩
      have hz : (⌈(endTime - t) / interval⌉).toNat = 0 := by
        have h1 : (endTime - t) / interval ≤ 0 :=
          div_nonpos_iff.mpr (Or.inr ⟨by linarith, le_of_lt hi⟩)
        have h2 : ⌈(endTime - t) / interval⌉ ≤ (0 : ℤ) := by
          rw [Int.ceil_le]
          exact_mod_cast h1
        omega
      rw [trackLoop.eq_def, dif_neg h, hz]
      rfl

theorem track_activity_ok (queries : ℕ → WinQuery) (start duration interval : ℚ)
    (hi : 0 < interval) (hq : ∀ j, queries j ≠ .raises) :
    track_activity queries start duration interval =
      .ok ((List.range (⌈duration / interval⌉).toNat).map
        (fun j : ℕ => ⟨start + (j : ℚ) * interval, titleStr (queries j)⟩)) := by
  rw [track_activity, trackLoop_ok queries interval (start + duration) hi hq 0 start]
  have h1 : start + duration - start = duration := by ring
  rw [h1]
  congr 1
  apply List.map_congr_left
  intro a _
  rw [Nat.zero_add]

/-- Claim C8: for every duration >= 0 (with a positive interval and
queries that do not raise), track_activity returns a sequence whose
length is within plus-or-minus 1 of duration / interval, and every
consecutive pair of samples has non-decreasing timestamps. -/
theorem track_activity_length_and_monotone (queries : ℕ → WinQuery)
    (start duration interval : ℚ) (hd : 0 ≤ duration) (hi : 0 < interval)
    (hq : ∀ j, queries j ≠ .raises) :
    ∃ l, track_activity queries start duration interval = .ok l ∧
      |(l.length : ℚ) - duration / interval| ≤ 1 ∧
      l.Chain' (fun a b => a.timestamp ≤ b.timestamp) := by
  refine ⟨_, track_activity_ok queries start duration interval hi hq, ?_, ?_⟩
  · rw [List.length_map, List.length_range]
    have hx : 0 ≤ duration / interval := div_nonneg hd hi.le
    have hnn : 0 ≤ ⌈duration / interval⌉ := Int.ceil_nonneg hx
    have hcast : ((⌈duration / interval⌉.toNat : ℕ) : ℚ) = ((⌈duration / interval⌉ : ℤ) : ℚ) := by
      exact_mod_cast congrArg (fun z : ℤ => (z : ℚ)) (Int.toNat_of_nonneg hnn)
    rw [hcast, abs_le]
    constructor
    · have := Int.le_ceil (duration / interval)
      linarith
    · have := Int.ceil_lt_add_one (duration / interval)
      have hlt : ((⌈duration / interval⌉ : ℤ) : ℚ) < duration / interval + 1 := by
        exact_mod_cast this
      linarith
  · apply List.Pairwise.chain'
    rw [List.pairwise_map]
    apply (List.pairwise_lt_range _).imp
    intro a b hab
    show start + (a : ℚ) * interval ≤ start + (b : ℚ) * interval
    have hcast : (a : ℚ) ≤ (b : ℚ) := by exact_mod_cast hab.le
    nlinarith

theorem track_activity_length_and_monotone_witness :
    ((0 : ℚ) ≤ 3 ∧ (0 : ℚ) < 1 ∧
      (∀ j : ℕ, (fun _ : ℕ => WinQuery.window "Editor") j ≠ .raises)) ∧
      (∃ l, track_activity (fun _ => WinQuery.window "Editor") 0 3 1 = .ok l ∧
        |(l.length : ℚ) - 3 / 1| ≤ 1 ∧
        l.Chain' (fun a b => a.timestamp ≤ b.timestamp)) :=
  ⟨⟨by norm_num, by norm_num, fun j => by simp⟩,
    track_activity_length_and_monotone (fun _ => WinQuery.window "Editor") 0 3 1
      (by norm_num) (by norm_num) (fun j => by simp)⟩

/-- Claim C3 counterexample: a window query that raises an exception is
not recorded as "Unknown" — it aborts the sampling loop. With queries
(ok "Editor", raise, ok "Editor") at interval 1 over duration 3, the
loop propagates the error instead of returning three records. -/
theorem raising_query_aborts_loop :
    track_activity (fun k => if k = 1 then WinQuery.raises else .window "Editor") 0 3 1
      = .error () := by
  rw [track_activity, trackLoop.eq_def]
  norm_num
  rw [trackLoop.eq_def]
  norm_num
  rfl

/-- Claim C3 (amended): a window query that returns no focused window is
recorded with the sentinel title "Unknown" and the sampling loop
continues to full length; a query that raises an exception, however,
propagates out of the loop (there is no exception handler in
track_activity). -/
theorem none_query_recorded_unknown (queries : ℕ → WinQuery)
    (start duration interval : ℚ) (hi : 0 < interval)
    (hq : ∀ j, queries j ≠ .raises) :
    ∃ l, track_activity queries start duration interval = .ok l ∧
      l.length = (⌈duration / interval⌉).toNat ∧
      ∀ (j : ℕ) (hj : j < l.length), queries j = .noWindow →
        (l.get ⟨j, hj⟩).title = "Unknown" := by
  refine ⟨_, track_activity_ok queries start duration interval hi hq, ?_, ?_⟩
  · rw [List.length_map, List.length_range]
  · intro j hj hnw
    simp only [List.get_eq_getElem, List.getElem_map]
    rw [List.getElem_range, hnw]
    rfl

theorem none_query_recorded_unknown_witness :
    ((0 : ℚ) < 1 ∧
      (∀ j : ℕ, (fun k : ℕ => if k = 1 then WinQuery.noWindow else .window "Editor") j
        ≠ .raises)) ∧
      (∃ l, track_activity (fun k => if k = 1 then WinQuery.noWindow else .window "Editor")
          0 3 1 = .ok l ∧
        l.length = (⌈(3 : ℚ) / 1⌉).toNat ∧
        ∀ (j : ℕ) (hj : j < l.length),
          (fun k : ℕ => if k = 1 then WinQuery.noWindow else .window "Editor") j
              = .noWindow →
            (l.get ⟨j, hj⟩).title = "Unknown") :=
  ⟨⟨by norm_num, fun j => by dsimp only; split <;> simp⟩,
    none_query_recorded_unknown (fun k => if k = 1 then WinQuery.noWindow else .window "Editor")
      0 3 1 (by norm_num) (fun j => by dsimp only; split <;> simp)⟩

/-! ## src/main.py -/

/-- File-system and collaborator events performed during a session, in
program order.  Writes come from the capture threads and the three
`open(..., "w")` blocks of run_session; the event vocabulary includes
file reads so that their absence is expressible (run_session never
opens a file for reading). -/
inductive Event where
  | fwrite (name : String)
  | fread (name : String)
  | transcribeCall (audioPath : String)
  | summarizeCall
  | trackCall
deriving DecidableEq

/-- External collaborators of one session: whisper's result dictionary
per audio path, the OPENAI_API_KEY environment variable, the chat API
reply content, the window-query outcomes, and the clock reading when
tracking starts. -/
structure SessionEnv where
  whisperResult : String → List (String × String)
  apiKey : Option String
  chatContent : String → String
  queries : ℕ → WinQuery
  clockStart : ℚ

/-- Embedding of `record_audio_and_screen(audio_file, video_file,
duration)` as used by run_session: the audio thread writes the audio
file and the video thread writes the video file (the relative order of
these two concurrent writes is abstracted as audio-then-video; no claim
depends on it), both threads are joined, and the two file names are
returned. -/
def record_audio_and_screen (audio_file video_file : String) (duration : ℚ) :
    (String × String) × List Event :=
  ((audio_file, video_file), [.fwrite audio_file, .fwrite video_file])

/-- Embedding of `run_session(duration, prefix)` from src/main.py: the
five artifact names are derived from the prefix, capture runs first,
then the audio is transcribed and the transcript written, then the
transcript is summarized and the summary written, then activity is
tracked (interval 1, the source default) and the activity log written.
A failing stage (missing API key, raising window query) aborts the rest
of the pipeline.  The source returns a 4-tuple
`(audio_file, video_file, transcript_file, summary_file)`; the embedding
pairs it with the event trace. -/
def run_session (env : SessionEnv) (duration : ℚ) (pre : String) :
    Except Unit ((String × String × String × String) × List Event) :=
  let audio_file := pre ++ "_audio.wav"
  let video_file := pre ++ "_screen.avi"
  let transcript_file := pre ++ "_transcript.txt"
  let summary_file := pre ++ "_summary.txt"
  let activity_file := pre ++ "_activity.json"
  let captureEvents := (record_audio_and_screen audio_file video_file duration).2
  let transcript := transcribe env.whisperResult audio_file
  match (summarize_text env.apiKey env.chatContent transcript).1 with
  | .error e => .error e
  | .ok _summary =>
      match track_activity env.queries env.clockStart duration 1 with
      | .error e => .error e
      | .ok _activity =>
          .ok ((audio_file, video_file, transcript_file, summary_file),
            captureEvents ++
              [.transcribeCall audio_file, .fwrite transcript_file,
                .summarizeCall, .fwrite summary_file,
                .trackCall, .fwrite activity_file])

/-- Names of the files written in a trace, in order. -/
def writtenFiles : List Event → List String
  | [] => []
  | .fwrite n :: es => n :: writtenFiles es
  | .fread _ :: es => writtenFiles es
  | .transcribeCall _ :: es => writtenFiles es
  | .summarizeCall :: es => writtenFiles es
  | .trackCall :: es => writtenFiles es

/-- Names of the files read in a trace, in order. -/
def readFiles : List Event → List String
  | [] => []
  | .fread n :: es => n :: readFiles es
  | .fwrite _ :: es => readFiles es
  | .transcribeCall _ :: es => readFiles es
  | .summarizeCall :: es => readFiles es
  | .trackCall :: es => readFiles es

/-- Paths returned by run_session, as a list. -/
def returnedPaths (r : String × String × String × String) : List String :=
  [r.1, r.2.1, r.2.2.1, r.2.2.2]

theorem append_right_ne (pre a b : String) (h : a ≠ b) : pre ++ a ≠ pre ++ b := by
  intro hc
  apply h
  have hd := congrArg String.data hc
  simp only [String.data_append] at hd
  exact congrArg String.mk (List.append_cancel_left hd)

theorem append_left_injective (pre : String) :
    Function.Injective (fun s : String => pre ++ s) := by
  intro a b hab
  by_contra hne
  exact append_right_ne pre a b hne hab

theorem run_session_ok_trace (env : SessionEnv) (duration : ℚ) (pre : String)
    (r : (String × String × String × String) × List Event)
    (h : run_session env duration pre = .ok r) :
    r = ((pre ++ "_audio.wav", pre ++ "_screen.avi", pre ++ "_transcript.txt",
          pre ++ "_summary.txt"),
        [.fwrite (pre ++ "_audio.wav"), .fwrite (pre ++ "_screen.avi"),
          .transcribeCall (pre ++ "_audio.wav"), .fwrite (pre ++ "_transcript.txt"),
          .summarizeCall, .fwrite (pre ++ "_summary.txt"),
          .trackCall, .fwrite (pre ++ "_activity.json")]) := by
  rw [run_session] at h
  split at h
  · exact absurd h (by simp)
  · split at h
    · exact absurd h (by simp)
    · rw [record_audio_and_screen] at h
      injection h with h
      exact h.symm

/-- Concrete session environment: whisper yields a transcript, the API
key is present, the chat API yields a summary, and every window query
succeeds. -/
def cEnv : SessionEnv :=
  { whisperResult := fun _ => [("text", "hello world")]
    apiKey := some "key"
    chatContent := fun _ => "a short summary"
    queries := fun _ => .window "Editor"
    clockStart := 0 }

/-- Result of running the session in `cEnv` for duration 0 with prefix
"t". -/
def cResult : (String × String × String × String) × List Event :=
  (("t_audio.wav", "t_screen.avi", "t_transcript.txt", "t_summary.txt"),
    [.fwrite "t_audio.wav", .fwrite "t_screen.avi",
      .transcribeCall "t_audio.wav", .fwrite "t_transcript.txt",
      .summarizeCall, .fwrite "t_summary.txt",
      .trackCall, .fwrite "t_activity.json"])

theorem run_session_concrete_eval : run_session cEnv 0 "t" = .ok cResult := by
  have htrack : track_activity cEnv.queries cEnv.clockStart 0 1 = .ok [] := by
    rw [track_activity, trackLoop.eq_def]
    norm_num
  rw [run_session, htrack]
  rfl

/-- Claim C1 counterexample: on a successful concrete run with prefix
"t", run_session returns only four paths — audio, video, transcript and
summary — and the activity path "t_activity.json" is not among them, so
the claimed five-path return contract fails. -/
theorem run_session_return_lacks_activity_path :
    (run_session cEnv 0 "t").map (fun r => returnedPaths r.1)
        = .ok ["t_audio.wav", "t_screen.avi", "t_transcript.txt", "t_summary.txt"] ∧
      "t_activity.json" ∉
        (["t_audio.wav", "t_screen.avi", "t_transcript.txt", "t_summary.txt"] :
          List String) := by
  constructor
  · rw [run_session_concrete_eval]
    rfl
  · decide

/-- Claim C1 (amended): for every environment, duration and prefix, a
successful run_session returns exactly four paths — the audio, video,
transcript and summary paths derived from the prefix; the activity path
is written but is not among the returned paths. -/
theorem run_session_returns_four_paths (env : SessionEnv) (duration : ℚ) (pre : String)
    (r : (String × String × String × String) × List Event)
    (h : run_session env duration pre = .ok r) :
    returnedPaths r.1 = [pre ++ "_audio.wav", pre ++ "_screen.avi",
        pre ++ "_transcript.txt", pre ++ "_summary.txt"] ∧
      pre ++ "_activity.json" ∉ returnedPaths r.1 := by
  have hr := run_session_ok_trace env duration pre r h
  rw [hr]
  refine ⟨rfl, ?_⟩
  intro hmem
  simp only [returnedPaths, List.mem_cons, List.not_mem_nil, or_false] at hmem
  rcases hmem with h1 | h1 | h1 | h1
  · exact append_right_ne pre _ _ (by decide) h1
  · exact append_right_ne pre _ _ (by decide) h1
  · exact append_right_ne pre _ _ (by decide) h1
  · exact append_right_ne pre _ _ (by decide) h1

theorem run_session_returns_four_paths_witness :
    run_session cEnv 0 "t" = .ok cResult ∧
      (returnedPaths cResult.1 = ["t" ++ "_audio.wav", "t" ++ "_screen.avi",
          "t" ++ "_transcript.txt", "t" ++ "_summary.txt"] ∧
        "t" ++ "_activity.json" ∉ returnedPaths cResult.1) :=
  ⟨run_session_concrete_eval,
    run_session_returns_four_paths cEnv 0 "t" cResult run_session_concrete_eval⟩

/-- Claim C7: every successful run_session with prefix "t" writes
exactly the five files t_audio.wav, t_screen.avi, t_transcript.txt,
t_summary.txt and t_activity.json, each exactly once (so all five are
present afterwards), writes no other file and reads no file back. -/
theorem run_session_writes_exactly_five_files (env : SessionEnv) (duration : ℚ)
    (r : (String × String × String × String) × List Event)
    (h : run_session env duration "t" = .ok r) :
    writtenFiles r.2 = ["t_audio.wav", "t_screen.avi", "t_transcript.txt",
        "t_summary.txt", "t_activity.json"] ∧
      (writtenFiles r.2).Nodup ∧ readFiles r.2 = [] := by
  have hr := run_session_ok_trace env duration "t" r h
  rw [hr]
  exact ⟨by decide, by decide, by decide⟩

theorem run_session_writes_exactly_five_files_witness :
    run_session cEnv 0 "t" = .ok cResult ∧
      (writtenFiles cResult.2 = ["t_audio.wav", "t_screen.avi", "t_transcript.txt",
          "t_summary.txt", "t_activity.json"] ∧
        (writtenFiles cResult.2).Nodup ∧ readFiles cResult.2 = []) :=
  ⟨run_session_concrete_eval,
    run_session_writes_exactly_five_files cEnv 0 cResult run_session_concrete_eval⟩

/-- Claim C9: every successful run_session performs its stages in the
fixed order capture (audio and video writes) → transcribe → persist
transcript → summarize → persist summary → sample activity → persist
activity log; in particular the activity sampler runs only after
capture, transcription and summarization are complete, and the written
artifact names are pairwise distinct, so each artifact is written
exactly once and never overwritten mid-run. -/
theorem run_session_stage_order (env : SessionEnv) (duration : ℚ) (pre : String)
    (r : (String × String × String × String) × List Event)
    (h : run_session env duration pre = .ok r) :
    r.2 = [.fwrite (pre ++ "_audio.wav"), .fwrite (pre ++ "_screen.avi"),
        .transcribeCall (pre ++ "_audio.wav"), .fwrite (pre ++ "_transcript.txt"),
        .summarizeCall, .fwrite (pre ++ "_summary.txt"),
        .trackCall, .fwrite (pre ++ "_activity.json")] ∧
      (writtenFiles r.2).Nodup := by
  have hr := run_session_ok_trace env duration pre r h
  rw [hr]
  refine ⟨rfl, ?_⟩
  show ([pre ++ "_audio.wav", pre ++ "_screen.avi", pre ++ "_transcript.txt",
    pre ++ "_summary.txt", pre ++ "_activity.json"]).Nodup
  have hmap : [pre ++ "_audio.wav", pre ++ "_screen.avi", pre ++ "_transcript.txt",
      pre ++ "_summary.txt", pre ++ "_activity.json"]
        = (["_audio.wav", "_screen.avi", "_transcript.txt", "_summary.txt",
          "_activity.json"]).map (fun s => pre ++ s) := rfl
  rw [hmap]
  exact List.Nodup.map (append_left_injective pre) (by decide)

theorem run_session_stage_order_witness :
    run_session cEnv 0 "t" = .ok cResult ∧
      (cResult.2 = [.fwrite ("t" ++ "_audio.wav"), .fwrite ("t" ++ "_screen.avi"),
          .transcribeCall ("t" ++ "_audio.wav"), .fwrite ("t" ++ "_transcript.txt"),
          .summarizeCall, .fwrite ("t" ++ "_summary.txt"),
          .trackCall, .fwrite ("t" ++ "_activity.json")] ∧
        (writtenFiles cResult.2).Nodup) :=
  ⟨run_session_concrete_eval,
    run_session_stage_order cEnv 0 "t" cResult run_session_concrete_eval⟩

end OfficeAssistant
